import Mathlib

/-!
Verification of `dagster_airflow/operators.py` (dagster-airflow).

We shallowly embed the Python module: Python values returned by `json.loads`
are modelled by the inductive `PyVal` (dictionaries keep insertion order as
association lists), Python exceptions by `PyErr`, and fallible code by
`Except PyErr`.  `json.loads` itself is an external library, modelled as a
parameter `jsonLoads : String → Option PyVal` (`none` = `JSONDecodeError`).
-/

/-- A Python value as produced by `json.loads` (and the arguments passed to
the operator constructor): `None`, booleans, integers, strings, lists and
dictionaries with string keys in insertion order. -/
inductive PyVal where
  | null
  | bool (b : Bool)
  | int (n : Int)
  | str (s : String)
  | list (xs : List PyVal)
  | dict (fields : List (String × PyVal))

/-- Python exceptions that the embedded code can raise. -/
inductive PyErr where
  | airflowException (msg : String)
  | assertionError (msg : String)
  | attributeError
  | keyError
  | typeError
deriving DecidableEq, Repr

/-- Python `v is None`. -/
def PyVal.isNull : PyVal → Bool
  | .null => true
  | _ => false

/-- Python `v == s` for a string literal `s`: equal only when `v` is that
string (no cross-type equality involves strings). -/
def pyEqStr : PyVal → String → Bool
  | .str s, t => s == t
  | _, _ => false

/-- Python `v == n` for an integer literal `n`: booleans compare as 0/1. -/
def pyEqInt : PyVal → Int → Bool
  | .int m, n => m == n
  | .bool b, n => (cond b 1 0 : Int) == n
  | _, _ => false

/-- Python truthiness: `None`, `False`, `0`, `''`, `[]` and `{}` are falsy. -/
def truthy : PyVal → Bool
  | .null => false
  | .bool b => b
  | .int n => n != 0
  | .str s => s != ""
  | .list xs => !xs.isEmpty
  | .dict fs => !fs.isEmpty

/-- Dictionary lookup (first binding wins, as in a Python dict where keys are
unique; our association lists play that role). -/
def jlookup (fs : List (String × PyVal)) (k : String) : Option PyVal :=
  (fs.find? (fun p => p.1 == k)).map (fun p => p.2)

mutual
/-- Python `repr` of a value (string escaping inside `repr` is not modelled:
the claims never inspect message text containing escaped strings). -/
def pyRepr : PyVal → String
  | .null => "None"
  | .bool b => cond b "True" "False"
  | .int n => toString n
  | .str s => "'" ++ s ++ "'"
  | .list xs => "[" ++ String.intercalate ", " (pyReprList xs) ++ "]"
  | .dict fs => "\x7b" ++ String.intercalate ", " (pyReprFields fs) ++ "\x7d"

def pyReprList : List PyVal → List String
  | [] => []
  | x :: xs => pyRepr x :: pyReprList xs

def pyReprFields : List (String × PyVal) → List String
  | [] => []
  | (k, v) :: fs => ("'" ++ k ++ "': " ++ pyRepr v) :: pyReprFields fs
end

/-- Python `str()` / `'{}'.format(...)` rendering of a value. -/
def pyStr : PyVal → String
  | .str s => s
  | v => pyRepr v

/-- Python `type(v)` as printed inside `'{type_}'.format(...)`. -/
def pyType : PyVal → String
  | .null => "<class 'NoneType'>"
  | .bool _ => "<class 'bool'>"
  | .int _ => "<class 'int'>"
  | .str _ => "<class 'str'>"
  | .list _ => "<class 'list'>"
  | .dict _ => "<class 'dict'>"

/-- Python `v.get(k, default)`: only dictionaries have `.get`; any other
receiver raises `AttributeError`. -/
def pyGet (v : PyVal) (k : String) (default : PyVal) : Except PyErr PyVal :=
  match v with
  | .dict fs => .ok ((jlookup fs k).getD default)
  | _ => .error .attributeError

/-- Python subscript `v[k]` with a string key: `KeyError` when a dictionary
lacks the key, `TypeError` on non-dictionaries. -/
def pyIndex (v : PyVal) (k : String) : Except PyErr PyVal :=
  match v with
  | .dict fs =>
    match jlookup fs k with
    | some w => .ok w
    | none => .error .keyError
  | _ => .error .typeError

/-- Split a character list at every newline character; the result always has
at least one (possibly empty) group, like Python `s.split('\n')`. -/
def splitCharList : List Char → List (List Char)
  | [] => [[]]
  | c :: cs =>
    let r := splitCharList cs
    if c = '\n' then [] :: r
    else
      match r with
      | [] => [[c]]
      | g :: gs => (c :: g) :: gs

/-- Python `s.split('\n')`. -/
def pySplitNewlines (s : String) : List String :=
  (splitCharList s.data).map (fun l => String.mk l)

/-- `parse_raw_res(raw_res)` (operators.py lines 35-51): split the decoded
output on newlines, scan the lines in reverse order, and return the first
line (in that reversed order) that `json.loads` accepts, together with the
last line of the input.  `res` starts out as Python `None` (our `.null`), so
a failed scan and a line whose JSON value is `null` are indistinguishable in
the result, exactly as in the source.  The byte string's UTF-8 decoding is
abstracted: `raw` is the decoded text. -/
def parse_raw_res (jsonLoads : String → Option PyVal) (raw : String) : PyVal × String :=
  let lines := (pySplitNewlines raw).reverse
  let last_line := lines.headD ""
  let res := (lines.findSome? jsonLoads).getD .null
  (res, last_line)

/-- `handle_errors(res, last_line)` (operators.py lines 54-62). -/
def handle_errors (res : PyVal) (last_line : String) : Except PyErr Unit := do
  if res.isNull then
    throw (.airflowException ("Unhandled error type. Response: " ++ last_line))
  let errs ← pyGet res "errors" .null
  if truthy errs then
    throw (.airflowException ("Internal error in GraphQL request. Response: " ++ pyStr res))
  let data ← pyGet res "data" (.dict [])
  let ep ← pyGet data "executePlan" (.dict [])
  let tn ← pyGet ep "__typename" .null
  if !truthy tn then
    throw (.airflowException ("Unexpected response type. Response: " ++ pyStr res))

/-- Python iteration `for x in v`: lists yield their elements, strings their
characters (as 1-character strings), dictionaries their keys; anything else
raises `TypeError`. -/
def pyIter : PyVal → Except PyErr (List PyVal)
  | .list xs => .ok xs
  | .str s => .ok (s.data.map (fun c => PyVal.str (String.singleton c)))
  | .dict fs => .ok (fs.map (fun p => PyVal.str p.1))
  | _ => .error .typeError

/-- Python `sep.join(v)`: joins an iterable whose elements must all be
strings, else `TypeError`. -/
def pyJoin (sep : String) (v : PyVal) : Except PyErr String := do
  let items ← pyIter v
  let ss ← items.mapM (fun j => match j with
    | .str s => Except.ok s
    | _ => Except.error PyErr.typeError)
  pure (String.intercalate sep ss)

/-- The list comprehension
`[step['errorMessage'] for step in ... if not step['success']]`
(operators.py lines 368-372), evaluated left to right. -/
def failed_step_messages : List PyVal → Except PyErr (List PyVal)
  | [] => .ok []
  | st :: rest => do
    let s ← pyIndex st "success"
    if truthy s then
      failed_step_messages rest
    else do
      let m ← pyIndex st "errorMessage"
      let ms ← failed_step_messages rest
      pure (m :: ms)

/-- The response-classification tail of `DagsterDockerOperator.execute`
(operators.py lines 346-388): recompute `res_data = res['data']['executePlan']`
and `res_type = res_data['__typename']` by subscripting, then branch on the
discriminator. -/
def classify_response (res : PyVal) : Except PyErr PyVal := do
  let data ← pyIndex res "data"
  let res_data ← pyIndex data "executePlan"
  let res_type ← pyIndex res_data "__typename"
  if pyEqStr res_type "PipelineConfigValidationInvalid" then do
    let errsV ← pyIndex res_data "errors"
    let items ← pyIter errsV
    let msgs ← items.mapM (fun e => pyIndex e "message")
    let joined ← pyJoin "\n" (.list msgs)
    throw (.airflowException ("Pipeline configuration invalid:\n" ++ joined))
  else if pyEqStr res_type "PipelineNotFoundError" then do
    let pn ← pyIndex res_data "pipelineName"
    let message ← pyIndex res_data "message"
    let stack ← pyIndex res_data "stack"
    let stack_entries ← pyJoin "\n" stack
    throw (.airflowException
      ("Pipeline " ++ pyStr pn ++ " not found: " ++ pyStr message ++ ":\n" ++ stack_entries))
  else if pyEqStr res_type "ExecutePlanSuccess" then do
    let hf ← pyIndex res_data "hasFailures"
    if truthy hf then do
      let evsV ← pyIndex res_data "stepEvents"
      let evs ← pyIter evsV
      let msgs ← failed_step_messages evs
      let joined ← pyJoin "\n" (.list msgs)
      throw (.airflowException ("Subplan execution failed:\n" ++ joined))
    else
      pure res
  else if pyEqStr res_type "PythonError" then do
    let message ← pyIndex res_data "message"
    let stack ← pyIndex res_data "stack"
    throw (.airflowException
      ("Subplan execution failed: " ++ pyStr message ++ "\n" ++ pyStr stack))
  else
    pure res

/-- The operator state carried by a constructed `DagsterDockerOperator`:
the fields of operators.py lines 189-195 that the verified methods read.
`config` and `pipeline_name` are strings by the constructor's assertions;
`step_keys` may still hold arbitrary values (see C9). -/
structure DagsterDockerOperator where
  step : PyVal
  config : String
  pipeline_name : String
  step_keys : List PyVal
  _run_id : Option String

/-- `DagsterDockerOperator.__init__` (operators.py lines 179-254), up to the
delegation to the superclass (docker connection probing, `xcom_all`,
`network_mode` and `environment` defaulting act only on external state).
A failed `assert` raises `AssertionError` with the formatted message.
The per-element loop of lines 214-217 tests `isinstance(step, string_types)`
— the loop variable `step_key` is not the value tested. -/
def DagsterDockerOperator.init (step config pipeline_name step_keys : PyVal) :
    Except PyErr DagsterDockerOperator := do
  let configS ← match config with
    | .str s => Except.ok s
    | v => Except.error (.assertionError
        ("Bad value for DagsterDockerOperator config: expected a string and got " ++
          pyStr v ++ " of type " ++ pyType v))
  let pipelineS ← match pipeline_name with
    | .str s => Except.ok s
    | v => Except.error (.assertionError
        ("Bad value for DagsterDockerOperator pipeline_name: expected a string and got " ++
          pyStr v ++ " of type " ++ pyType v))
  let sk ← match step_keys with
    | .null => Except.ok []
    | .list xs => Except.ok xs
    | v => Except.error (.assertionError
        ("Bad value for DagsterDockerOperator step_keys: expected a list and got " ++
          pyStr v ++ " of type " ++ pyType v))
  let bad_keys := sk.enum.filter (fun _ => !(match step with | .str _ => true | _ => false))
  if bad_keys.isEmpty then
    pure { step := step, config := configS, pipeline_name := pipelineS,
           step_keys := sk, _run_id := none }
  else
    throw (.assertionError
      ("Bad values for DagsterDockerOperator step_keys (expected only strings): " ++
        String.intercalate ", "
          (bad_keys.map (fun p =>
            pyStr p.2 ++ " of type " ++ pyType p.2 ++ " at index " ++ toString p.1))))

/-- The `run_id` property (operators.py lines 291-296). -/
def DagsterDockerOperator.run_id (op : DagsterDockerOperator) : String :=
  match op._run_id with
  | none => ""
  | some r => r

/-- Modelled from the spec: `QUERY_TEMPLATE` is imported from
`dagster_airflow/query.py`, a file of this repository that is not among the
sources; the spec describes it only as "a templated request payload sent to
an execution-plan query service (fields: configuration text, run identifier,
step-key list, pipeline name)".  We model
`QUERY_TEMPLATE.format(config=..., run_id=..., step_keys=..., pipeline_name=...)`
as a fixed template combining the four field strings. -/
def QUERY_TEMPLATE.format (config run_id step_keys pipeline_name : String) : String :=
  "mutation \x7b config: " ++ config ++ " runId: " ++ run_id ++
    " stepKeys: " ++ step_keys ++ " pipelineName: " ++ pipeline_name ++ " \x7d"

/-- Python `s.strip(c)` for a one-character strip set: remove every leading
and trailing occurrence of `c`. -/
def pyStrip (c : Char) (s : String) : String :=
  String.mk (((s.data.dropWhile (fun a => a == c)).reverse.dropWhile (fun a => a == c)).reverse)

/-- The `query` property (operators.py lines 298-310). -/
def DagsterDockerOperator.query (op : DagsterDockerOperator) : String :=
  let step_keys :=
    "[" ++ String.intercalate ", "
      (op.step_keys.map (fun step_key => "\"" ++ pyStr step_key ++ "\"")) ++ "]"
  QUERY_TEMPLATE.format (pyStrip '\n' op.config) op.run_id step_keys op.pipeline_name

/-- `ModifiedDockerOperator.execute` (operators.py lines 103-156) from the
point where the container has been created, started, logged and waited on:
the container engine is external, so `waitResult` stands for the dictionary
returned by `cli.wait(...)` and `allLogs`/`lastLine` for the log output
returned when `xcom_push_flag` is set (`xcom_push` is forced to `True` by
`ModifiedDockerOperator.__init__`, line 94, but we keep the flag). -/
def ModifiedDockerOperator.execute (waitResult : PyVal)
    (xcom_push_flag xcom_all : Bool) (allLogs lastLine : String) :
    Except PyErr (Option String) := do
  let sc ← pyIndex waitResult "StatusCode"
  if !(pyEqInt sc 0) then
    throw (.airflowException ("docker container failed: " ++ pyRepr waitResult))
  if xcom_push_flag then
    pure (some (if xcom_all then allLogs else lastLine))
  else
    pure none

/-- `DagsterDockerOperator.execute(context)` (operators.py lines 331-391).
The container run performed by `super().execute(context)` is external:
`super_res` is its outcome (the raw log output, UTF-8 decoded, or the
exception it raised).  `params_run_id` is `self.params['run_id']` when the
key is present; `ctx_dag_run` distinguishes `dag_run` absent from the context
(`none`), present but `None` (`some none`), and present with its `run_id`
(`some (some r)`).  The result pairs the body's outcome with the operator
state after the `finally` block has run. -/
def DagsterDockerOperator.execute (op : DagsterDockerOperator)
    (params_run_id : Option String) (ctx_dag_run : Option (Option String))
    (super_res : Except PyErr String) (jsonLoads : String → Option PyVal) :
    Except PyErr PyVal × DagsterDockerOperator :=
  let op1 :=
    match params_run_id with
    | some r => { op with _run_id := some r }
    | none =>
      match ctx_dag_run with
      | some (some r) => { op with _run_id := some r }
      | _ => op
  let body : Except PyErr PyVal := do
    let raw ← super_res
    let p := parse_raw_res jsonLoads raw
    handle_errors p.1 p.2
    classify_response p.1
  (body, { op1 with _run_id := none })

/-! Spec-side definitions, written from the spec's words, to be compared with
the embedded code. -/

/-- Spec side of C1: the JSON value of the last line, in original order, that
the parser accepts (`none` when no line parses): a forward scan that keeps
the latest successful parse. -/
def lastParsedLine (jsonLoads : String → Option PyVal) : List String → Option PyVal
  | [] => none
  | l :: ls =>
    match lastParsedLine jsonLoads ls with
    | some v => some v
    | none => jsonLoads l

/-- A response that passes `handle_errors`: a dictionary without a truthy
`errors` entry, whose `data` entry is a dictionary whose `executePlan` entry
is the dictionary `res_data`, carrying a truthy `__typename` value `tv`. -/
def WellFormedTop (fields res_data : List (String × PyVal)) (tv : PyVal) : Prop :=
  truthy ((jlookup fields "errors").getD .null) = false ∧
  ∃ dfields,
    jlookup fields "data" = some (.dict dfields) ∧
    jlookup dfields "executePlan" = some (.dict res_data) ∧
    jlookup res_data "__typename" = some tv ∧
    truthy tv = true

/-- The fields the `PipelineConfigValidationInvalid` branch reads from
`res_data`, shaped so the branch formats its message without a subscripting
or join error: an `errors` list of dictionaries each carrying a string
`message`. -/
def ConfigInvalidFields (res_data : List (String × PyVal)) : Prop :=
  ∃ errs, jlookup res_data "errors" = some (.list errs) ∧
    ∀ e ∈ errs, ∃ ef m, e = .dict ef ∧ jlookup ef "message" = some (.str m)

/-- The fields the `PipelineNotFoundError` branch reads from `res_data`:
`pipelineName` and `message` present, and a `stack` list of strings. -/
def NotFoundFields (res_data : List (String × PyVal)) : Prop :=
  (∃ pn, jlookup res_data "pipelineName" = some pn) ∧
  (∃ m, jlookup res_data "message" = some m) ∧
  (∃ sts : List String, jlookup res_data "stack" = some (.list (sts.map PyVal.str)))

/-- The fields the `PythonError` branch reads from `res_data`: `message` and
`stack` present (they are only interpolated, so any value formats). -/
def PythonErrorFields (res_data : List (String × PyVal)) : Prop :=
  (∃ m, jlookup res_data "message" = some m) ∧
  (∃ st, jlookup res_data "stack" = some st)

/-- Spec side of C4: `msgs` collects the `errorMessage` strings of exactly
those step events whose `success` field is falsy, in order. -/
inductive FailedMessages : List PyVal → List String → Prop
  | nil : FailedMessages [] []
  | success (sf : List (String × PyVal)) (s : PyVal) (rest : List PyVal) (ms : List String) :
      jlookup sf "success" = some s → truthy s = true →
      FailedMessages rest ms → FailedMessages (.dict sf :: rest) ms
  | failure (sf : List (String × PyVal)) (s : PyVal) (m : String) (rest : List PyVal)
      (ms : List String) :
      jlookup sf "success" = some s → truthy s = false →
      jlookup sf "errorMessage" = some (.str m) →
      FailedMessages rest ms → FailedMessages (.dict sf :: rest) (m :: ms)

/-! Theorems. -/

theorem reverse_findSome?_eq_lastParsedLine (f : String → Option PyVal) (l : List String) :
    l.reverse.findSome? f = lastParsedLine f l := by
  induction l with
  | nil => rfl
  | cons a l ih =>
    rw [List.reverse_cons, List.findSome?_append, ih, lastParsedLine]
    cases lastParsedLine f l <;> cases hfa : f a <;>
      simp [List.findSome?, hfa, Option.or]

theorem reverse_headD_eq_getLastD (l : List String) (d : String) :
    l.reverse.headD d = l.getLastD d := by
  rw [List.headD_eq_head?, List.head?_reverse, List.getLastD_eq_getLast?]

/-- C1: `parse_raw_res` splits the decoded output on newlines and returns the
pair of the JSON value of the last line (in original order) that parses —
Python `None`, i.e. `.null`, when no line parses — and the final line of the
input; its reverse scan computes exactly this. -/
theorem parse_raw_res_last_parsed_and_final_line
    (jsonLoads : String → Option PyVal) (raw : String) :
    parse_raw_res jsonLoads raw =
      ((lastParsedLine jsonLoads (pySplitNewlines raw)).getD .null,
       (pySplitNewlines raw).getLastD "") := by
  show ((((pySplitNewlines raw).reverse).findSome? jsonLoads).getD .null,
        ((pySplitNewlines raw).reverse).headD "") = _
  rw [reverse_findSome?_eq_lastParsedLine, reverse_headD_eq_getLastD]

/-- C7: the claim describes the constructor validation the code intends (its
assertion message promises "expected only strings" about `step_keys`), but the
loop on line 216 tests `step` instead of `step_key`: with a string `step`, a
`step_keys` list holding the non-string `1` is accepted without error. -/
theorem init_accepts_bad_step_keys_failing_input :
    DagsterDockerOperator.init (.str "solid") (.str "cfg") (.str "pipe") (.list [.int 1]) =
      .ok { step := .str "solid", config := "cfg", pipeline_name := "pipe",
            step_keys := [.int 1], _run_id := none } := rfl

/-- C9: when `step` is a string, the bad-keys assertion can never fire, so the
constructor accepts every `step_keys` list, non-string elements included
(provided `config` and `pipeline_name` are strings and `step_keys` is a
list). -/
theorem init_ok_of_step_string (s c p : String) (xs : List PyVal) :
    DagsterDockerOperator.init (.str s) (.str c) (.str p) (.list xs) =
      .ok { step := .str s, config := c, pipeline_name := p,
            step_keys := xs, _run_id := none } := by
  simp [DagsterDockerOperator.init, List.filter_false]
  rfl

/-- C10: whether the body returns or raises, the `finally` block has reset
`_run_id` to `None` by the time `execute` finishes, so the `run_id` property
reads the empty string between executions. -/
theorem execute_resets_run_id (op : DagsterDockerOperator)
    (params_run_id : Option String) (ctx_dag_run : Option (Option String))
    (super_res : Except PyErr String) (jsonLoads : String → Option PyVal) :
    (op.execute params_run_id ctx_dag_run super_res jsonLoads).2._run_id = none ∧
    (op.execute params_run_id ctx_dag_run super_res jsonLoads).2.run_id = "" :=
  ⟨rfl, rfl⟩

@[simp] theorem except_bind_ok {ε α β} (a : α) (f : α → Except ε β) :
    (Except.ok a : Except ε α) >>= f = f a := rfl

@[simp] theorem except_bind_error {ε α β} (e : ε) (f : α → Except ε β) :
    (Except.error e : Except ε α) >>= f = .error e := rfl

@[simp] theorem except_pure_eq {ε α} (a : α) : (pure a : Except ε α) = Except.ok a := rfl

@[simp] theorem except_throw_eq {ε α} (e : ε) : (throw e : Except ε α) = Except.error e := rfl

/-- `handle_errors` on a dictionary with a truthy `errors` entry raises the
"Internal error" AirflowException. -/
theorem handle_errors_dict_errors (fields : List (String × PyVal)) (ll : String)
    (herrs : truthy ((jlookup fields "errors").getD .null) = true) :
    handle_errors (.dict fields) ll =
      .error (.airflowException
        ("Internal error in GraphQL request. Response: " ++ pyStr (.dict fields))) := by
  unfold handle_errors
  simp [PyVal.isNull, pyGet, herrs]

/-- `handle_errors` on a dictionary whose `errors` entry is falsy and whose
defaulted `data`/`executePlan` chain consists of dictionaries reduces to the
final `__typename` truthiness test. -/
theorem handle_errors_dict_chain (fields dfields epfields : List (String × PyVal))
    (ll : String)
    (herr : truthy ((jlookup fields "errors").getD .null) = false)
    (hdata : (jlookup fields "data").getD (.dict []) = .dict dfields)
    (hep : (jlookup dfields "executePlan").getD (.dict []) = .dict epfields) :
    handle_errors (.dict fields) ll =
      (if !truthy ((jlookup epfields "__typename").getD .null) then
        .error (.airflowException
          ("Unexpected response type. Response: " ++ pyStr (.dict fields)))
      else .ok ()) := by
  unfold handle_errors
  simp only [PyVal.isNull, pyGet, herr, hdata, hep, except_bind_ok, except_pure_eq,
    except_throw_eq, Bool.false_eq_true, if_false]

/-- C2 counterexample: for the dictionary `{'data': 'x'}` the nested
discriminator field is missing, so the claim demands an AirflowException, but
`res.get('data', {}).get(...)` calls `.get` on the string `'x'` and an
AttributeError escapes instead. -/
theorem handle_errors_attributeError_counterexample :
    handle_errors (.dict [("data", .str "x")]) "last" = .error .attributeError ∧
    ¬ ∃ msg, handle_errors (.dict [("data", .str "x")]) "last" =
      .error (.airflowException msg) := by
  refine ⟨rfl, ?_⟩
  rintro ⟨msg, h⟩
  rw [show handle_errors (.dict [("data", .str "x")]) "last" = .error .attributeError
    from rfl] at h
  simp at h

/-- C2 (amended): for every `res` that is either `None` or a dictionary —
provided that, for a dictionary, the `errors` entry is truthy or the
defaulted `res.get('data', {})` and `.get('executePlan', {})` values are
dictionaries — `handle_errors` raises AirflowException exactly when `res` is
`None`, or the `errors` entry is truthy, or the nested `__typename` value is
missing or falsy.  When an intermediate value of the chain is a
non-dictionary, an AttributeError escapes instead (see the counterexample),
which is why the proviso is needed. -/
theorem handle_errors_airflow_iff (res : PyVal) (last_line : String)
    (fields dfields epfields : List (String × PyVal))
    (hshape : res = .null ∨ res = .dict fields)
    (hchain : res = .null ∨
      truthy ((jlookup fields "errors").getD .null) = true ∨
      ((jlookup fields "data").getD (.dict []) = .dict dfields ∧
       (jlookup dfields "executePlan").getD (.dict []) = .dict epfields)) :
    (∃ msg, handle_errors res last_line = .error (.airflowException msg)) ↔
      (res = .null ∨
       truthy ((jlookup fields "errors").getD .null) = true ∨
       truthy ((jlookup epfields "__typename").getD .null) = false) := by
  rcases hshape with rfl | rfl
  · exact ⟨fun _ => Or.inl rfl, fun _ => ⟨_, rfl⟩⟩
  · rcases hchain with hnull | herrs | ⟨hdata, hep⟩
    · exact PyVal.noConfusion hnull
    · constructor
      · exact fun _ => Or.inr (Or.inl herrs)
      · exact fun _ => ⟨_, handle_errors_dict_errors fields last_line herrs⟩
    · by_cases herr2 : truthy ((jlookup fields "errors").getD .null) = true
      · constructor
        · exact fun _ => Or.inr (Or.inl herr2)
        · exact fun _ => ⟨_, handle_errors_dict_errors fields last_line herr2⟩
      · have herr2' : truthy ((jlookup fields "errors").getD .null) = false := by
          simpa using herr2
        have heval :=
          handle_errors_dict_chain fields dfields epfields last_line herr2' hdata hep
        rcases Bool.eq_false_or_eq_true
          (truthy ((jlookup epfields "__typename").getD .null)) with htn | htn
        · simp [htn] at heval
          constructor
          · rintro ⟨msg, hmsg⟩
            rw [heval] at hmsg
            cases hmsg
          · rintro (h | h | h)
            · exact PyVal.noConfusion h
            · exact absurd h herr2
            · rw [htn] at h
              cases h
        · simp [htn] at heval
          constructor
          · exact fun _ => Or.inr (Or.inr htn)
          · exact fun _ => ⟨_, heval⟩

/-- Witness for C2 (amended): a response dictionary carrying a truthy
`errors` entry raises AirflowException. -/
theorem handle_errors_airflow_iff_witness :
    ∃ msg, handle_errors (.dict [("errors", .list [.str "e"])]) "last" =
      .error (.airflowException msg) :=
  (handle_errors_airflow_iff (.dict [("errors", .list [.str "e"])]) "last"
      [("errors", .list [.str "e"])] [] []
      (Or.inr rfl) (Or.inr (Or.inl rfl))).mpr
    (Or.inr (Or.inl rfl))

/-- C5: the `query` property is the payload template formatted with the
configuration text stripped of leading and trailing newlines, the run
identifier (empty string when unset), the step keys rendered as a bracketed,
comma-space-separated sequence of double-quoted keys, and the pipeline
name. -/
theorem query_formats_template (op : DagsterDockerOperator) (ss : List String)
    (hkeys : op.step_keys = ss.map PyVal.str) :
    op.query = QUERY_TEMPLATE.format
      (pyStrip '\n' op.config)
      (op._run_id.getD "")
      ("[" ++ String.intercalate ", " (ss.map (fun s => "\"" ++ s ++ "\"")) ++ "]")
      op.pipeline_name := by
  have hrun : op.run_id = op._run_id.getD "" := by
    cases h : op._run_id <;> simp [DagsterDockerOperator.run_id, h]
  unfold DagsterDockerOperator.query
  rw [hkeys, hrun, List.map_map]
  have hcomp : ((fun step_key => "\"" ++ pyStr step_key ++ "\"") ∘ PyVal.str) =
      (fun s : String => "\"" ++ s ++ "\"") := by
    funext s
    rfl
  rw [hcomp]

/-- Witness for C5. -/
theorem query_formats_template_witness :
    DagsterDockerOperator.query
        { step := .str "solid", config := "\nconf\n", pipeline_name := "pipe",
          step_keys := [.str "k1", .str "k2"], _run_id := none } =
      QUERY_TEMPLATE.format "conf" "" "[\"k1\", \"k2\"]" "pipe" :=
  (query_formats_template _ ["k1", "k2"] rfl).trans (by rfl)

/-- C6: whenever the container wait result carries a non-zero integer
`StatusCode`, `ModifiedDockerOperator.execute` raises AirflowException, for
every combination of the xcom flags and log output. -/
theorem modified_execute_raises_on_nonzero_status
    (fs : List (String × PyVal)) (n : Int)
    (xcom_push_flag xcom_all : Bool) (allLogs lastLine : String)
    (hsc : jlookup fs "StatusCode" = some (.int n)) (hn : n ≠ 0) :
    ModifiedDockerOperator.execute (.dict fs) xcom_push_flag xcom_all allLogs lastLine =
      .error (.airflowException ("docker container failed: " ++ pyRepr (.dict fs))) := by
  unfold ModifiedDockerOperator.execute
  simp [pyIndex, hsc, pyEqInt, hn]

/-- Witness for C6. -/
theorem modified_execute_raises_on_nonzero_status_witness :
    ModifiedDockerOperator.execute (.dict [("StatusCode", .int 1)]) true true "logs" "line" =
      .error (.airflowException
        ("docker container failed: " ++ pyRepr (.dict [("StatusCode", .int 1)]))) :=
  modified_execute_raises_on_nonzero_status [("StatusCode", .int 1)] 1 true true
    "logs" "line" rfl (by decide)

theorem mapM_message_ok (errs : List PyVal)
    (h : ∀ e ∈ errs, ∃ ef m, e = .dict ef ∧ jlookup ef "message" = some (.str m)) :
    ∃ ms : List String,
      errs.mapM (fun e => pyIndex e "message") = Except.ok (ms.map PyVal.str) := by
  induction errs with
  | nil => exact ⟨[], rfl⟩
  | cons e rest ih =>
    obtain ⟨ef, m, rfl, hm⟩ := h e (by simp)
    obtain ⟨ms, hms⟩ := ih (fun x hx => h x (by simp [hx]))
    refine ⟨m :: ms, ?_⟩
    have hmI : pyIndex (.dict ef) "message" = Except.ok (.str m) := by
      simp [pyIndex, hm]
    rw [List.mapM_cons, hms, hmI]
    rfl

theorem pyJoin_str_list (sep : String) (ms : List String) :
    pyJoin sep (.list (ms.map PyVal.str)) = .ok (String.intercalate sep ms) := by
  have key : ∀ l : List String,
      (l.map PyVal.str).mapM
        (fun j => match j with
          | PyVal.str s => Except.ok s
          | _ => Except.error PyErr.typeError) = Except.ok l := by
    intro l
    induction l with
    | nil => rfl
    | cons a l ih =>
      rw [List.map_cons, List.mapM_cons, ih]
      rfl
  unfold pyJoin
  show ((ms.map PyVal.str).mapM
      (fun j => match j with
        | PyVal.str s => Except.ok s
        | _ => Except.error PyErr.typeError) >>=
    fun ss => pure (String.intercalate sep ss)) = _
  rw [key ms]
  rfl

theorem failed_step_messages_refines (evs : List PyVal) (ms : List String)
    (h : FailedMessages evs ms) :
    failed_step_messages evs = .ok (ms.map PyVal.str) := by
  induction h with
  | nil => rfl
  | success sf s rest ms hs ht _ ih =>
    unfold failed_step_messages
    simp [pyIndex, hs, ht, ih]
  | failure sf s m rest ms hs ht hm _ ih =>
    unfold failed_step_messages
    simp [pyIndex, hs, ht, hm, ih]

theorem execute_body_eq_classify (op : DagsterDockerOperator)
    (params_run_id : Option String) (ctx_dag_run : Option (Option String))
    (raw : String) (jsonLoads : String → Option PyVal)
    (fields res_data : List (String × PyVal)) (tv : PyVal)
    (hres : (parse_raw_res jsonLoads raw).1 = .dict fields)
    (htop : WellFormedTop fields res_data tv) :
    (op.execute params_run_id ctx_dag_run (.ok raw) jsonLoads).1 =
      classify_response (.dict fields) := by
  obtain ⟨herr, dfields, hdata, hep, htn, htv⟩ := htop
  have hdata' : (jlookup fields "data").getD (.dict []) = .dict dfields := by
    rw [hdata]
    rfl
  have hep' : (jlookup dfields "executePlan").getD (.dict []) = .dict res_data := by
    rw [hep]
    rfl
  have hhe : handle_errors (.dict fields) (parse_raw_res jsonLoads raw).2 = .ok () := by
    rw [handle_errors_dict_chain fields dfields res_data _ herr hdata' hep', htn]
    simp [htv]
  show (handle_errors (parse_raw_res jsonLoads raw).1 (parse_raw_res jsonLoads raw).2 >>=
      fun _ => classify_response (parse_raw_res jsonLoads raw).1) = _
  rw [hres, hhe]
  rfl

/-- C3: for every well-formed response whose discriminator is
`PipelineConfigValidationInvalid`, `PipelineNotFoundError` or `PythonError`,
`DagsterDockerOperator.execute` raises AirflowException: a known failure
variant never produces a normal return. -/
theorem execute_raises_on_failure_variants (op : DagsterDockerOperator)
    (params_run_id : Option String) (ctx_dag_run : Option (Option String))
    (raw : String) (jsonLoads : String → Option PyVal)
    (fields res_data : List (String × PyVal)) (T : String)
    (hres : (parse_raw_res jsonLoads raw).1 = .dict fields)
    (htop : WellFormedTop fields res_data (.str T))
    (hT : T = "PipelineConfigValidationInvalid" ∨ T = "PipelineNotFoundError" ∨
      T = "PythonError")
    (hb1 : T = "PipelineConfigValidationInvalid" → ConfigInvalidFields res_data)
    (hb2 : T = "PipelineNotFoundError" → NotFoundFields res_data)
    (hb3 : T = "PythonError" → PythonErrorFields res_data) :
    ∃ msg, (op.execute params_run_id ctx_dag_run (.ok raw) jsonLoads).1 =
      .error (.airflowException msg) := by
  obtain ⟨herr, dfields, hdata, hep, htn, htv⟩ := htop
  rw [execute_body_eq_classify op params_run_id ctx_dag_run raw jsonLoads fields res_data
    (.str T) hres ⟨herr, dfields, hdata, hep, htn, htv⟩]
  have hdataI : pyIndex (.dict fields) "data" = .ok (.dict dfields) := by
    simp [pyIndex, hdata]
  have hepI : pyIndex (.dict dfields) "executePlan" = .ok (.dict res_data) := by
    simp [pyIndex, hep]
  have htnI : pyIndex (.dict res_data) "__typename" = .ok (.str T) := by
    simp [pyIndex, htn]
  unfold classify_response
  rw [hdataI]
  simp only [except_bind_ok]
  rw [hepI]
  simp only [except_bind_ok]
  rw [htnI]
  simp only [except_bind_ok]
  rcases hT with rfl | rfl | rfl
  · obtain ⟨errs, herrs2, hmsgs⟩ := hb1 rfl
    obtain ⟨ms, hms⟩ := mapM_message_ok errs hmsgs
    have herrsI : pyIndex (.dict res_data) "errors" = .ok (.list errs) := by
      simp [pyIndex, herrs2]
    simp only [pyEqStr, beq_self_eq_true, if_true, eq_self_iff_true]
    rw [herrsI]
    simp only [except_bind_ok, pyIter]
    rw [hms]
    simp only [except_bind_ok]
    rw [pyJoin_str_list]
    exact ⟨_, rfl⟩
  · obtain ⟨⟨pn, hpn⟩, ⟨m, hm⟩, ⟨sts, hst⟩⟩ := hb2 rfl
    have hpnI : pyIndex (.dict res_data) "pipelineName" = .ok pn := by
      simp [pyIndex, hpn]
    have hmI : pyIndex (.dict res_data) "message" = .ok m := by
      simp [pyIndex, hm]
    have hstI : pyIndex (.dict res_data) "stack" = .ok (.list (sts.map PyVal.str)) := by
      simp [pyIndex, hst]
    simp only [pyEqStr,
      show (("PipelineNotFoundError" == "PipelineConfigValidationInvalid") = false)
        from rfl,
      beq_self_eq_true, Bool.false_eq_true, if_false, if_true, eq_self_iff_true]
    rw [hpnI]
    simp only [except_bind_ok]
    rw [hmI]
    simp only [except_bind_ok]
    rw [hstI]
    simp only [except_bind_ok]
    rw [pyJoin_str_list]
    exact ⟨_, rfl⟩
  · obtain ⟨⟨m, hm⟩, ⟨st, hst⟩⟩ := hb3 rfl
    have hmI : pyIndex (.dict res_data) "message" = .ok m := by
      simp [pyIndex, hm]
    have hstI : pyIndex (.dict res_data) "stack" = .ok st := by
      simp [pyIndex, hst]
    simp only [pyEqStr,
      show (("PythonError" == "PipelineConfigValidationInvalid") = false) from rfl,
      show (("PythonError" == "PipelineNotFoundError") = false) from rfl,
      show (("PythonError" == "ExecutePlanSuccess") = false) from rfl,
      beq_self_eq_true, Bool.false_eq_true, if_false, if_true, eq_self_iff_true]
    rw [hmI]
    simp only [except_bind_ok]
    rw [hstI]
    simp only [except_bind_ok]
    exact ⟨_, rfl⟩

/-- Witness for C3 at the `PythonError` variant. -/
theorem execute_raises_on_failure_variants_witness :
    ∃ msg,
      (DagsterDockerOperator.execute
          { step := .str "solid", config := "conf", pipeline_name := "pipe",
            step_keys := [], _run_id := none }
          none none (.ok "x")
          (fun _ => some (.dict [("data", .dict [("executePlan", .dict
            [("__typename", .str "PythonError"), ("message", .str "m"),
             ("stack", .str "st")])])]))).1 =
      .error (.airflowException msg) :=
  execute_raises_on_failure_variants _ none none "x" _
    [("data", .dict [("executePlan", .dict
      [("__typename", .str "PythonError"), ("message", .str "m"),
       ("stack", .str "st")])])]
    [("__typename", .str "PythonError"), ("message", .str "m"), ("stack", .str "st")]
    "PythonError" rfl
    ⟨rfl, [("executePlan", .dict
      [("__typename", .str "PythonError"), ("message", .str "m"),
       ("stack", .str "st")])], rfl, rfl, rfl, rfl⟩
    (Or.inr (Or.inr rfl))
    (fun h => absurd h (by decide))
    (fun h => absurd h (by decide))
    (fun _ => ⟨⟨_, rfl⟩, ⟨_, rfl⟩⟩)

/-- C4: for every well-formed `ExecutePlanSuccess` response,
`DagsterDockerOperator.execute` returns the parsed response when
`hasFailures` is falsy, and when `hasFailures` is truthy it raises an
AirflowException whose message joins, in order, the `errorMessage` of
exactly the step events whose `success` field is falsy. -/
theorem execute_success_variant (op : DagsterDockerOperator)
    (params_run_id : Option String) (ctx_dag_run : Option (Option String))
    (raw : String) (jsonLoads : String → Option PyVal)
    (fields res_data : List (String × PyVal)) (hf : PyVal)
    (evs : List PyVal) (msgs : List String)
    (hres : (parse_raw_res jsonLoads raw).1 = .dict fields)
    (htop : WellFormedTop fields res_data (.str "ExecutePlanSuccess"))
    (hhf : jlookup res_data "hasFailures" = some hf)
    (hfail : truthy hf = true →
      jlookup res_data "stepEvents" = some (.list evs) ∧ FailedMessages evs msgs) :
    if truthy hf then
      (op.execute params_run_id ctx_dag_run (.ok raw) jsonLoads).1 =
        .error (.airflowException
          ("Subplan execution failed:\n" ++ String.intercalate "\n" msgs))
    else
      (op.execute params_run_id ctx_dag_run (.ok raw) jsonLoads).1 =
        .ok (.dict fields) := by
  obtain ⟨herr, dfields, hdata, hep, htn, htv⟩ := htop
  rw [execute_body_eq_classify op params_run_id ctx_dag_run raw jsonLoads fields res_data
    (.str "ExecutePlanSuccess") hres ⟨herr, dfields, hdata, hep, htn, htv⟩]
  have hdataI : pyIndex (.dict fields) "data" = .ok (.dict dfields) := by
    simp [pyIndex, hdata]
  have hepI : pyIndex (.dict dfields) "executePlan" = .ok (.dict res_data) := by
    simp [pyIndex, hep]
  have htnI : pyIndex (.dict res_data) "__typename" = .ok (.str "ExecutePlanSuccess") := by
    simp [pyIndex, htn]
  have hhfI : pyIndex (.dict res_data) "hasFailures" = .ok hf := by
    simp [pyIndex, hhf]
  unfold classify_response
  rw [hdataI]
  simp only [except_bind_ok]
  rw [hepI]
  simp only [except_bind_ok]
  rw [htnI]
  simp only [except_bind_ok]
  simp only [pyEqStr,
    show (("ExecutePlanSuccess" == "PipelineConfigValidationInvalid") = false) from rfl,
    show (("ExecutePlanSuccess" == "PipelineNotFoundError") = false) from rfl,
    beq_self_eq_true, Bool.false_eq_true, if_false, if_true, eq_self_iff_true]
  rw [hhfI]
  simp only [except_bind_ok]
  cases hhf2 : truthy hf
  · simp only [Bool.false_eq_true, if_false]
    rfl
  · obtain ⟨hse, hfm⟩ := hfail hhf2
    have hseI : pyIndex (.dict res_data) "stepEvents" = .ok (.list evs) := by
      simp [pyIndex, hse]
    simp only [eq_self_iff_true, if_true]
    rw [hseI]
    simp only [except_bind_ok, pyIter]
    rw [failed_step_messages_refines evs msgs hfm]
    simp only [except_bind_ok]
    rw [pyJoin_str_list]
    rfl

/-- Witness for C4: one failed step (message `boom`) and one successful
step. -/
theorem execute_success_variant_witness :
    (DagsterDockerOperator.execute
        { step := .str "solid", config := "conf", pipeline_name := "pipe",
          step_keys := [], _run_id := none }
        none none (.ok "x")
        (fun _ => some (.dict [("data", .dict [("executePlan", .dict
          [("__typename", .str "ExecutePlanSuccess"), ("hasFailures", .bool true),
           ("stepEvents", .list
             [.dict [("success", .bool false), ("errorMessage", .str "boom")],
              .dict [("success", .bool true)]])])])]))).1 =
      .error (.airflowException "Subplan execution failed:\nboom") :=
  execute_success_variant _ none none "x" _
    [("data", .dict [("executePlan", .dict
      [("__typename", .str "ExecutePlanSuccess"), ("hasFailures", .bool true),
       ("stepEvents", .list
         [.dict [("success", .bool false), ("errorMessage", .str "boom")],
          .dict [("success", .bool true)]])])])]
    [("__typename", .str "ExecutePlanSuccess"), ("hasFailures", .bool true),
     ("stepEvents", .list
       [.dict [("success", .bool false), ("errorMessage", .str "boom")],
        .dict [("success", .bool true)]])]
    (.bool true)
    [.dict [("success", .bool false), ("errorMessage", .str "boom")],
     .dict [("success", .bool true)]]
    ["boom"] rfl
    ⟨rfl, [("executePlan", .dict
      [("__typename", .str "ExecutePlanSuccess"), ("hasFailures", .bool true),
       ("stepEvents", .list
         [.dict [("success", .bool false), ("errorMessage", .str "boom")],
          .dict [("success", .bool true)]])])], rfl, rfl, rfl, rfl⟩
    rfl
    (fun _ => ⟨rfl,
      FailedMessages.failure _ (.bool false) "boom" _ [] rfl rfl rfl
        (FailedMessages.success _ (.bool true) [] [] rfl rfl FailedMessages.nil)⟩)

/-- C8: for every well-formed response whose discriminator is present and
truthy but none of the four known tags, `DagsterDockerOperator.execute`
returns the parsed response without raising: the catchall branch does not
signal failure. -/
theorem execute_catchall_returns (op : DagsterDockerOperator)
    (params_run_id : Option String) (ctx_dag_run : Option (Option String))
    (raw : String) (jsonLoads : String → Option PyVal)
    (fields res_data : List (String × PyVal)) (tv : PyVal)
    (hres : (parse_raw_res jsonLoads raw).1 = .dict fields)
    (htop : WellFormedTop fields res_data tv)
    (h1 : pyEqStr tv "PipelineConfigValidationInvalid" = false)
    (h2 : pyEqStr tv "PipelineNotFoundError" = false)
    (h3 : pyEqStr tv "ExecutePlanSuccess" = false)
    (h4 : pyEqStr tv "PythonError" = false) :
    (op.execute params_run_id ctx_dag_run (.ok raw) jsonLoads).1 =
      .ok (.dict fields) := by
  obtain ⟨herr, dfields, hdata, hep, htn, htv⟩ := htop
  rw [execute_body_eq_classify op params_run_id ctx_dag_run raw jsonLoads fields res_data
    tv hres ⟨herr, dfields, hdata, hep, htn, htv⟩]
  have hdataI : pyIndex (.dict fields) "data" = .ok (.dict dfields) := by
    simp [pyIndex, hdata]
  have hepI : pyIndex (.dict dfields) "executePlan" = .ok (.dict res_data) := by
    simp [pyIndex, hep]
  have htnI : pyIndex (.dict res_data) "__typename" = .ok tv := by
    simp [pyIndex, htn]
  unfold classify_response
  rw [hdataI]
  simp only [except_bind_ok]
  rw [hepI]
  simp only [except_bind_ok]
  rw [htnI]
  simp only [except_bind_ok]
  simp only [h1, h2, h3, h4, Bool.false_eq_true, if_false]
  rfl

/-- Witness for C8: an unrecognized discriminator tag is passed through. -/
theorem execute_catchall_returns_witness :
    (DagsterDockerOperator.execute
        { step := .str "solid", config := "conf", pipeline_name := "pipe",
          step_keys := [], _run_id := none }
        none none (.ok "x")
        (fun _ => some (.dict [("data", .dict [("executePlan", .dict
          [("__typename", .str "InvalidStepError")])])]))).1 =
      .ok (.dict [("data", .dict [("executePlan", .dict
        [("__typename", .str "InvalidStepError")])])]) :=
  execute_catchall_returns _ none none "x" _
    [("data", .dict [("executePlan", .dict [("__typename", .str "InvalidStepError")])])]
    [("__typename", .str "InvalidStepError")]
    (.str "InvalidStepError") rfl
    ⟨rfl, [("executePlan", .dict [("__typename", .str "InvalidStepError")])],
      rfl, rfl, rfl, rfl⟩
    rfl rfl rfl rfl
